import Mathlib

/-!
Verification of the marine-economy dashboard (src/app.py) against its
natural-language specification.

The development shallowly embeds the data-reconciliation and aggregation
logic of the app: panel rows become a Lean structure, the pandas
filter / groupby-sum / rank / deviation-statistics operations become
executable Lean functions over lists, with numeric values as rationals and
nullable cells as Option values.  Each claim of the specification is then
stated and settled as a theorem about these definitions.
-/

namespace MarineEcon

/-- One row of the loaded panel.  Fields mirror the renamed columns of the
CSV inputs (GeoScale, GeoName, state, stateName, aggregation, OceanSector,
OceanIndustry, Year) together with, for the currently selected metric, the
three source-tagged value columns: the Open ENOW estimate, the original
(legacy) ENOW reference, and the no-imputation alternative.  A missing cell
is represented by none, matching pandas NaN after to_numeric coercion. -/
structure PanelRow where
  GeoScale : String
  GeoName : String
  stateAbbrv : String
  stateName : String
  aggregation : String
  OceanSector : String
  OceanIndustry : String
  Year : Int
  openVal : Option ℚ
  enowVal : Option ℚ
  noimpVal : Option ℚ
deriving DecidableEq, Repr

/-- Mean of a list of rationals; none on the empty list, matching the NaN
that pandas mean produces on an empty series. -/
def meanQ (xs : List ℚ) : Option ℚ :=
  if xs = [] then none else some (xs.sum / (xs.length : ℚ))

/-- pandas sum with min_count equal to 1: nulls are skipped, and a group in
which every value is null sums to NaN (none) rather than 0. -/
def sumMin1 (vs : List (Option ℚ)) : Option ℚ :=
  if vs.filterMap id = [] then none else some (vs.filterMap id).sum

/-- pandas default sum (min_count equal to 0): nulls are skipped and an
all-null group sums to 0. -/
def sumSkipna (vs : List (Option ℚ)) : ℚ :=
  (vs.filterMap id).sum

/-- The replace step that maps an exact 0 to NaN (the documented
zero-means-missing convention of the comparison display). -/
def zeroToNone (o : Option ℚ) : Option ℚ :=
  o.bind (fun v => if v = 0 then none else some v)

/-- pandas groupby-sum on a list of (key, value) pairs: one output pair per
distinct key, carrying the sum of the values of its fiber. -/
def groupbySum {κ : Type} [DecidableEq κ] (ps : List (κ × ℚ)) : List (κ × ℚ) :=
  ((ps.map Prod.fst).dedup).map
    (fun k => (k, ((ps.filter (fun p => p.1 = k)).map Prod.snd).sum))

/-! ### Filter predicates (src/app.py lines 397-408, 452-459, 484-488, 672-674)

Every row predicate used by the filtering pipeline: inclusive year bounds
(the slider range), aggregation level, geography name, geography scale,
sector or industry name, and state code. -/

/-- The family of row predicates applied by the filter chains of the app. -/
inductive FilterPred where
  | yearGe (y : Int)
  | yearLe (y : Int)
  | yearBetween (lo hi : Int)
  | aggregationEq (s : String)
  | geoNameEq (s : String)
  | geoScaleEq (s : String)
  | oceanSectorEq (s : String)
  | oceanIndustryEq (s : String)
  | stateEq (s : String)
deriving DecidableEq

/-- Evaluation of a filter predicate on a row, as the boolean masks of the
source compute it. -/
def FilterPred.holds : FilterPred → PanelRow → Bool
  | .yearGe y, r => decide (y ≤ r.Year)
  | .yearLe y, r => decide (r.Year ≤ y)
  | .yearBetween lo hi, r => decide (lo ≤ r.Year) && decide (r.Year ≤ hi)
  | .aggregationEq s, r => decide (r.aggregation = s)
  | .geoNameEq s, r => decide (r.GeoName = s)
  | .geoScaleEq s, r => decide (r.GeoScale = s)
  | .oceanSectorEq s, r => decide (r.OceanSector = s)
  | .oceanIndustryEq s, r => decide (r.OceanIndustry = s)
  | .stateEq s, r => decide (r.stateAbbrv = s)

/-- Applying one predicate to a panel: boolean-mask row selection. -/
def applyFilter (p : FilterPred) (T : List PanelRow) : List PanelRow :=
  T.filter p.holds

/-! ### The Error Analysis filter chain (src/app.py lines 656-674)

The year range comes straight from a slider; there is no validation step,
no InvalidFilterSpec, and no exception path anywhere in the chain, so the
run function below is total and always returns ok. -/

/-- The Error Analysis filter chain: aggregation level, geographic scale and
year range in one mask, then the optional state and sector filters.  Mirrors
src/app.py lines 672-674. -/
def eaFilteredRows (T : List PanelRow) (agg geoscale : String) (ylo yhi : Int)
    (stateSel sectorSel : Option String) : List PanelRow :=
  let f1 := T.filter (fun r => decide (r.aggregation = agg) && decide (r.GeoScale = geoscale)
      && (decide (ylo ≤ r.Year) && decide (r.Year ≤ yhi)))
  let f2 := match stateSel with
    | none => f1
    | some s => f1.filter (fun r => decide (r.stateAbbrv = s))
  match sectorSel with
  | none => f2
  | some s => f2.filter (fun r => decide (r.OceanSector = s))

/-- Running the filter construction and query.  The source raises nothing on
any input (in particular not on an inverted year range), so the result is
always Except.ok. -/
def eaFilterRun (T : List PanelRow) (agg geoscale : String) (ylo yhi : Int)
    (stateSel sectorSel : Option String) : Except String (List PanelRow) :=
  Except.ok (eaFilteredRows T agg geoscale ylo yhi stateSel sectorSel)

/-! ### The single-series bar aggregation (src/app.py lines 580-585)

bar_df groups the filtered rows by Year and sums the selected metric column
with the pandas default sum (skipna, min_count 0); the currency rescaling by
one million is applied afterwards, to the grouped sums. -/

/-- bar_df: groupby Year, pandas default sum of the selected metric column.
A year whose rows are all null still produces a group, summed to 0. -/
def bar_df (l : List PanelRow) (col : PanelRow → Option ℚ) : List (Int × ℚ) :=
  ((l.map (fun r => r.Year)).dedup).map
    (fun y => (y, sumSkipna ((l.filter (fun r => decide (r.Year = y))).map col)))

/-- The post-groupby currency rescaling of bar_df (line 585): division by one
million applied to the already-grouped sums when the metric is a currency. -/
def barDfScaled (isCurrency : Bool) (l : List PanelRow) (col : PanelRow → Option ℚ) :
    List (Int × ℚ) :=
  if isCurrency then (bar_df l col).map (fun e => (e.1, e.2 / 1000000)) else bar_df l col

/-! ### The Compare-to-original-ENOW pipeline (src/app.py lines 777-803) -/

/-- Row-level currency rescaling of the three metric columns (line 778:
plot_df.iloc with all metric columns divided by one million).  Note that this
happens to the rows, before the groupby sum. -/
def scaleRowMillions (r : PanelRow) : PanelRow :=
  { r with openVal := r.openVal.map (fun v => v / 1000000),
           enowVal := r.enowVal.map (fun v => v / 1000000),
           noimpVal := r.noimpVal.map (fun v => v / 1000000) }

/-- The plot_df of Compare mode after the conditional rescaling step. -/
def comparePlotRows (isCurrency : Bool) (l : List PanelRow) : List PanelRow :=
  if isCurrency then l.map scaleRowMillions else l

/-- One row of compare_df: per-year sums of the three sources, after
sum(min_count=1) and the replace of 0 by NaN. -/
structure CompareYear where
  Year : Int
  enowVal : Option ℚ
  openVal : Option ℚ
  noimpVal : Option ℚ
deriving DecidableEq, Repr

/-- compare_df (line 779): groupby Year, sum with min_count 1, then replace
exact zeros by NaN in every metric column. -/
def compare_df (l : List PanelRow) : List CompareYear :=
  ((l.map (fun r => r.Year)).dedup).map (fun y =>
    { Year := y
      enowVal := zeroToNone (sumMin1
        ((l.filter (fun r => decide (r.Year = y))).map (fun r => r.enowVal)))
      openVal := zeroToNone (sumMin1
        ((l.filter (fun r => decide (r.Year = y))).map (fun r => r.openVal)))
      noimpVal := zeroToNone (sumMin1
        ((l.filter (fun r => decide (r.Year = y))).map (fun r => r.noimpVal))) })

/-- The full Compare pipeline from filtered rows to compare_df, including the
conditional currency rescaling exactly where the source performs it: on the
rows, before the groupby sum. -/
def compareDfPipeline (isCurrency : Bool) (l : List PanelRow) : List CompareYear :=
  compare_df (comparePlotRows isCurrency l)

/-- Applying the currency rescaling after the grouped summation instead: the
presentation-stage transform the specification describes. -/
def scaleCompareYear (c : CompareYear) : CompareYear :=
  { c with enowVal := c.enowVal.map (fun v => v / 1000000),
           openVal := c.openVal.map (fun v => v / 1000000),
           noimpVal := c.noimpVal.map (fun v => v / 1000000) }

/-- long_form_df (line 780): melt compare_df on Year with one block per
source column, dropping null values. -/
def long_form_df (cds : List CompareYear) : List (Int × String × ℚ) :=
  cds.filterMap (fun c => c.enowVal.map (fun v => (c.Year, "Original ENOW", v)))
    ++ cds.filterMap (fun c => c.openVal.map (fun v => (c.Year, "Open ENOW Estimate", v)))
    ++ cds.filterMap (fun c =>
        c.noimpVal.map (fun v => (c.Year, "Public QCEW data, no imputed values", v)))

/-- The estimate series a Compare-mode summary block compares against the
Original ENOW reference. -/
inductive CompareSource where
  | openEnow
  | noimpute
deriving DecidableEq

/-- The column of compare_df selected by a summary block. -/
def CompareYear.sourceVal : CompareYear → CompareSource → Option ℚ
  | c, .openEnow => c.openVal
  | c, .noimpute => c.noimpVal

/-- valid_compare (line 798): the years of compare_df in which both the
reference column and the selected estimate column are present. -/
def validCompare (cds : List CompareYear) (src : CompareSource) : List CompareYear :=
  cds.filter (fun c => c.enowVal.isSome && (c.sourceVal src).isSome)

/-- Compare-mode mean absolute error over the valid years (line 800);
none when no valid year exists (the not-enough-overlapping-data branch). -/
def compareMAE (cds : List CompareYear) (src : CompareSource) : Option ℚ :=
  meanQ ((validCompare cds src).map
    (fun c => |(c.sourceVal src).getD 0 - c.enowVal.getD 0|))

/-- Compare-mode mean squared error over the valid years.  The displayed
root mean squared error of line 801 is its square root, which neither adds
nor removes contributing years. -/
def compareMSE (cds : List CompareYear) (src : CompareSource) : Option ℚ :=
  meanQ ((validCompare cds src).map
    (fun c => ((c.sourceVal src).getD 0 - c.enowVal.getD 0) ^ 2))

/-- The percent-difference series of line 802, one value per valid year. -/
def comparePctList (cds : List CompareYear) (src : CompareSource) : List ℚ :=
  (validCompare cds src).map
    (fun c => 100 * ((c.sourceVal src).getD 0 - c.enowVal.getD 0) / c.enowVal.getD 0)

/-- Mean percent difference of line 803: mean of the percent-difference
series over the valid years. -/
def comparePctMean (cds : List CompareYear) (src : CompareSource) : Option ℚ :=
  meanQ (comparePctList cds src)

/-! ### Error Analysis group statistics (src/app.py lines 680-689) -/

/-- Line 681: drop the rows of a group in which either the reference column
or the estimate column is null. -/
def eaDropna (g : List PanelRow) : List PanelRow :=
  g.filter (fun r => r.enowVal.isSome && r.openVal.isSome)

/-- Line 683: valid_enow keeps the rows whose reference value is not 0
(pandas: NaN compares unequal to 0, so a null would also be kept, though
none remains after the dropna). -/
def validEnow (g : List PanelRow) : List PanelRow :=
  g.filter (fun r => !(decide (r.enowVal = some 0)))

/-- Lines 683-686: mean percent difference of a group, averaged over the
rows of valid_enow; NaN (none) when that series is empty. -/
def eaMPD (g : List PanelRow) : Option ℚ :=
  meanQ ((validEnow (eaDropna g)).map
    (fun r => 100 * (r.openVal.getD 0 - r.enowVal.getD 0) / r.enowVal.getD 0))

/-- Line 686: mean absolute error of a group, over every row surviving the
dropna — including rows in which either value is exactly 0. -/
def eaMAE (g : List PanelRow) : Option ℚ :=
  meanQ ((eaDropna g).map (fun r => |r.openVal.getD 0 - r.enowVal.getD 0|))

/-- Line 686: mean squared error of a group over the rows surviving the
dropna; the displayed root mean squared error is its square root. -/
def eaMSE (g : List PanelRow) : Option ℚ :=
  meanQ ((eaDropna g).map (fun r => (r.openVal.getD 0 - r.enowVal.getD 0) ^ 2))

/-- Modelled from the spec: the aligned rows of a pairwise comparison —
rows in which both series have a non-null, non-zero value.  Used only to
compare the code against the alignment sentence of the specification. -/
def alignedRows (g : List PanelRow) : List PanelRow :=
  g.filter (fun r => r.enowVal.isSome && r.openVal.isSome
    && !(decide (r.enowVal = some 0)) && !(decide (r.openVal = some 0)))

/-- Modelled from the spec: mean absolute error over the aligned rows. -/
def specAlignedMAE (g : List PanelRow) : Option ℚ :=
  meanQ ((alignedRows g).map (fun r => |r.openVal.getD 0 - r.enowVal.getD 0|))

/-! ### Top-N-plus-other decomposition (src/app.py lines 555-562)

source_df keeps Year, GeoName and the selected metric column and drops null
metric values; each row is then ranked within its year by the pandas rank
with method first and ascending False, the rows of rank at most 3 keep their
geography name, every other row is relabeled to the synthetic other bucket,
and a groupby on (Year, label) sums the metric. -/

/-- A row of source_df: year, geography name and a present metric value
(line 556 has already dropped the nulls). -/
structure GeoYearRow where
  Year : Int
  GeoName : String
  val : ℚ
deriving DecidableEq, Repr

/-- Lines 555-556: select the three columns and drop null metric values. -/
def sourceRows (l : List PanelRow) (col : PanelRow → Option ℚ) : List GeoYearRow :=
  l.filterMap (fun r => (col r).map (fun v => { Year := r.Year, GeoName := r.GeoName, val := v }))

/-- The comparator of the pandas rank with method first and ascending False:
larger values come first, and among equal values the earlier position comes
first. -/
def leDesc (a b : ℕ × ℚ) : Bool :=
  decide (b.2 < a.2) || (decide (a.2 = b.2) && decide (a.1 ≤ b.1))

/-- The strict version of the descending-with-index-tie-break order: a
strictly larger value, or an equal value at a strictly earlier position. -/
def sltPair (a b : ℕ × ℚ) : Prop :=
  b.2 < a.2 ∨ (a.2 = b.2 ∧ a.1 < b.1)

instance (a b : ℕ × ℚ) : Decidable (sltPair a b) := by
  unfold sltPair
  infer_instance

/-- The pandas rank with method first and ascending False of the value at
position p of a group: one plus the position of p in the stable descending
sort of the indexed values. -/
def rankFirst (g : List ℚ) (p : ℕ) : ℕ :=
  ((g.enum.mergeSort leDesc).findIdx (fun q => decide (q.1 = p))) + 1

/-- Modelled from the spec: the rank of position p as the specification
words it — one plus the number of entries with a strictly larger value or
with an equal value encountered earlier in the input. -/
def specRankCount (g : List ℚ) (p : ℕ) : ℕ :=
  (g.enum.countP (fun q =>
    decide (g.getD p 0 < q.2) || (decide (q.2 = g.getD p 0) && decide (q.1 < p)))) + 1

/-- The label of the synthetic remainder group (line 559). -/
def otherLabel (scale : String) : String :=
  "All Other " ++ scale ++ "s"

/-- The rows of one year group, in input order (the pandas groupby of line
558 ranks within each year group). -/
def yearRows (l : List GeoYearRow) (y : Int) : List GeoYearRow :=
  l.filter (fun r => decide (r.Year = y))

/-- Lines 558-560 on one year group: each row keeps its geography name when
its rank is at most 3 and is relabeled to the other bucket otherwise. -/
def labeledYear (scale : String) (g : List GeoYearRow) : List (String × ℚ) :=
  g.enum.map (fun p =>
    (if rankFirst (g.map (fun r => r.val)) p.1 ≤ 3 then p.2.GeoName else otherLabel scale,
     p.2.val))

/-- All labeled rows, year by year, with the year attached to the label. -/
def labeledRows (scale : String) (l : List GeoYearRow) : List ((Int × String) × ℚ) :=
  ((l.map (fun r => r.Year)).dedup).flatMap
    (fun y => (labeledYear scale (yearRows l y)).map (fun e => ((y, e.1), e.2)))

/-- plot_df_geos (line 561): groupby (Year, GeoContribution) and sum the
metric. -/
def plot_df_geos (scale : String) (l : List GeoYearRow) : List ((Int × String) × ℚ) :=
  groupbySum (labeledRows scale l)

/-- Modelled from the spec: the labeling of one year group using the
counting formulation of the stable descending rank. -/
def specLabeledYear (scale : String) (g : List GeoYearRow) : List (String × ℚ) :=
  g.enum.map (fun p =>
    (if specRankCount (g.map (fun r => r.val)) p.1 ≤ 3 then p.2.GeoName else otherLabel scale,
     p.2.val))

/-- Modelled from the spec: all labeled rows under the counting rank. -/
def specLabeledRows (scale : String) (l : List GeoYearRow) : List ((Int × String) × ℚ) :=
  ((l.map (fun r => r.Year)).dedup).flatMap
    (fun y => (specLabeledYear scale (yearRows l y)).map (fun e => ((y, e.1), e.2)))

/-- Modelled from the spec: the decomposition built from the counting rank. -/
def specPlotDfGeos (scale : String) (l : List GeoYearRow) : List ((Int × String) × ℚ) :=
  groupbySum (specLabeledRows scale l)

/-! ### The Error Analysis results table (src/app.py lines 686-693)

Each result_row dictionary is created with the keys below — X_Value, the two
level columns, the three error statistics, the grouping variables, GeoName —
and never a key Y_Value.  Line 692 then calls dropna with subset
[Y_Value, X_Value] on the DataFrame *before* line 693 creates the Y_Value
column, so pandas raises a KeyError naming the missing column. -/

/-- The fixed keys every result_row receives at line 686. -/
def fixedResultKeys : List String :=
  ["X_Value", "Original ENOW Value", "Open ENOW Estimate", "Mean Percent Difference",
   "Mean Absolute Error", "Root Mean Squared Error"]

/-- The full key list of a result_row: the fixed keys, then one key per
grouping variable (lines 687-688), then GeoName. -/
def resultRowKeys (gvars : List String) : List String :=
  fixedResultKeys ++ gvars ++ ["GeoName"]

/-- The grouping variables offered by the sidebar checkboxes (line 650). -/
def allowedGroupVars : List String :=
  ["OceanSector", "OceanIndustry", "Year", "state"]

/-- pandas dropna with a subset: raises a KeyError naming the columns of the
subset that are absent from the frame; otherwise succeeds. -/
def dropnaSubsetCheck (subset cols : List String) : Except String Unit :=
  if subset.all (fun c => decide (c ∈ cols)) then Except.ok ()
  else Except.error
    ("KeyError: " ++ String.intercalate ", " (subset.filter (fun c => decide (c ∉ cols))))

/-- Lines 691-693 of the results-table construction, up to the point where
its success or failure is decided: when results is non-empty, the dropna on
subset [Y_Value, X_Value] runs against the columns of DataFrame(results),
which are exactly the result_row keys. -/
def buildResultsTable (gvars : List String) (results : List (List ℚ)) :
    Except String (List (List ℚ)) :=
  if results = [] then Except.ok []
  else (dropnaSubsetCheck ["Y_Value", "X_Value"] (resultRowKeys gvars)).map (fun _ => results)

/-! ### Name binding of the Compare-to-original-ENOW branch (src/app.py 725-790)

A Streamlit script reruns top to bottom on each interaction.  In Compare
mode the estimate-modes branch (lines 340-632) is skipped, so the names
is_currency, y_label and tooltip_format — assigned only at lines 498-505
inside that branch — are unbound when the Compare branch reads them.  The
model below tracks exactly this: which names each statement of the branch
binds or reads, with a render step for the chart call of line 790. -/

/-- One statement of the name-binding slice: an assignment to a module-level
name, a read of a module-level name, or a chart render. -/
inductive PyStmt where
  | assignName (x : String)
  | readName (x : String)
  | renderChart
deriving DecidableEq

/-- Running a statement list over the environment of bound names: an
assignment binds, a read of an unbound name raises a NameError, and the
result counts the charts rendered. -/
def runStmts : List PyStmt → List String → Except String ℕ
  | [], _ => Except.ok 0
  | PyStmt.assignName x :: rest, env => runStmts rest (x :: env)
  | PyStmt.readName x :: rest, env =>
      if env.contains x then runStmts rest env
      else Except.error ("NameError: " ++ x)
  | PyStmt.renderChart :: rest, env => (runStmts rest env).map (fun n => n + 1)

/-- The module-level names bound before the mode branches, on a run that
enters the Compare branch (lines 95-338): the two loaded frames, the metric
map, the button map, the mode flag, and the initialized selection
variables.  None of is_currency, y_label, tooltip_format is among them. -/
def prologueEnv : List String :=
  ["comparison_data", "open_enow_data", "METRIC_MAP", "SECTOR_DESCRIPTIONS",
   "METRIC_DESCRIPTIONS", "button_map", "plot_mode", "estimate_modes",
   "selected_county_name", "selected_state", "geo_filter_type", "all_geo_label",
   "selected_geo", "selected_sector"]

/-- The assignments of the Compare branch up to and including required_cols
(lines 726-771); every read in this span is of an already-bound name. -/
def compareSetupStmts : List PyStmt :=
  [PyStmt.assignName "active_df", PyStmt.assignName "state_df",
   PyStmt.assignName "state_names", PyStmt.assignName "state_abbr_map",
   PyStmt.assignName "selected_state_name", PyStmt.assignName "selected_state_abbr",
   PyStmt.assignName "county_list", PyStmt.assignName "selected_county",
   PyStmt.assignName "ocean_sectors", PyStmt.assignName "selected_sector",
   PyStmt.assignName "industry_list", PyStmt.assignName "selected_industry",
   PyStmt.assignName "metric_choices", PyStmt.assignName "selected_display_metric",
   PyStmt.assignName "selected_metric_internal", PyStmt.assignName "min_year",
   PyStmt.assignName "max_year", PyStmt.assignName "year_range",
   PyStmt.assignName "geo_title", PyStmt.assignName "econ_title",
   PyStmt.assignName "base_filtered_df", PyStmt.assignName "is_county_level",
   PyStmt.assignName "is_industry_level", PyStmt.assignName "open_metric_col",
   PyStmt.assignName "enow_metric_col", PyStmt.assignName "noimpute_metric_col",
   PyStmt.assignName "required_cols"]

/-- The plotting span of the Compare branch (lines 777-790): plot_df is
assigned, then line 778 reads is_currency, then compare_df and long_form_df
are assigned, lines 785 and 787 read y_label and tooltip_format, and line
790 renders the chart. -/
def comparePlotStmts : List PyStmt :=
  [PyStmt.assignName "plot_df", PyStmt.readName "is_currency",
   PyStmt.assignName "compare_df", PyStmt.assignName "long_form_df",
   PyStmt.readName "y_label", PyStmt.readName "tooltip_format",
   PyStmt.assignName "chart", PyStmt.renderChart]

/-- A run of the Compare branch.  When the comparison data failed to load,
line 729 stops the script; when a required metric column is missing, line
775 stops it after the setup span; otherwise the branch runs through the
plotting span. -/
def runCompareBranch (dataLoaded hasRequiredCols : Bool) : Except String ℕ :=
  if dataLoaded then
    if hasRequiredCols then runStmts (compareSetupStmts ++ comparePlotStmts) prologueEnv
    else runStmts compareSetupStmts prologueEnv
  else Except.ok 0

/-! ### Concrete sample rows for counterexamples and witnesses -/

/-- A representative panel row used to instantiate concrete scenarios. -/
def sampleRow : PanelRow :=
  { GeoScale := "State", GeoName := "Alaska", stateAbbrv := "AK", stateName := "Alaska",
    aggregation := "Sector", OceanSector := "Tourism and Recreation", OceanIndustry := "",
    Year := 2022, openVal := some 100, enowVal := some 90, noimpVal := some 80 }

/-- A 2020 row whose selected metric is null in every source column. -/
def nullRow2020 : PanelRow :=
  { sampleRow with Year := 2020, openVal := none, enowVal := none, noimpVal := none }

/-- A 2020 row with currency values: an Open estimate of 2,000,000 dollars
and a reference value of 4,000,000 dollars. -/
def wageRow : PanelRow :=
  { sampleRow with Year := 2020, openVal := some 2000000, enowVal := some 4000000,
                   noimpVal := none }

/-- A row whose reference value is exactly 0 while the estimate is 4. -/
def zeroRefRow : PanelRow :=
  { sampleRow with Year := 2020, openVal := some 4, enowVal := some 0, noimpVal := none }

/-- A row in which both series agree at the non-zero value 10. -/
def agreeRow : PanelRow :=
  { sampleRow with Year := 2021, openVal := some 10, enowVal := some 10, noimpVal := none }

/-- The compare_df row produced from wageRow with the currency rescaling
applied (values in millions). -/
def cmpYearScaled : CompareYear :=
  { Year := 2020, enowVal := some 4, openVal := some 2, noimpVal := none }

/-- The compare_df row produced from wageRow without rescaling (raw
dollars). -/
def cmpYearRaw : CompareYear :=
  { Year := 2020, enowVal := some 4000000, openVal := some 2000000, noimpVal := none }

/-! ## Theorems -/

/-- Skipna summation equals summation with nulls read as zero: a null cell
contributes nothing, and the total stays a plain number. -/
theorem sumSkipna_eq_sum_getD (vs : List (Option ℚ)) :
    sumSkipna vs = (vs.map (fun o => o.getD 0)).sum := by
  induction vs with
  | nil => rfl
  | cons o t ih =>
    cases o with
    | none => simpa [sumSkipna, List.filterMap_cons] using ih
    | some v =>
      simp only [sumSkipna] at ih ⊢
      rw [show List.filterMap id (some v :: t) = v :: List.filterMap id t from rfl]
      simp [ih]

/-- Claim C7: applying any two of the filtering pipeline predicates (year
range, geography scale, geography name, aggregation level, sector/industry,
state) in either order yields the same row set. -/
theorem c7_filter_commutes (T : List PanelRow) (p1 p2 : FilterPred) :
    applyFilter p2 (applyFilter p1 T) = applyFilter p1 (applyFilter p2 T) := by
  simp only [applyFilter, List.filter_filter]
  exact List.filter_congr (fun r _ => Bool.and_comm _ _)

/-- Claim C8, counterexample: a filter request with year_min 2025 and
year_max 2020 on a non-empty panel raises nothing — it returns the ordinary
(empty) query result, never an InvalidFilterSpec error. -/
theorem c8_counterexample :
    eaFilterRun [sampleRow] "Sector" "State" 2025 2020 none none = Except.ok []
    ∧ ∀ e : String,
        eaFilterRun [sampleRow] "Sector" "State" 2025 2020 none none ≠ Except.error e := by
  have hok : eaFilterRun [sampleRow] "Sector" "State" 2025 2020 none none
      = Except.ok [] := by rfl
  refine ⟨hok, ?_⟩
  intro e h
  rw [hok] at h
  exact Except.noConfusion h

/-- Claim C8, amended: the code defines no InvalidFilterSpec and performs no
validation of the year bounds; a spec with year_min greater than year_max is
accepted and the filter chain simply returns the empty row set at query
time. -/
theorem c8_no_invalid_filter_spec (T : List PanelRow) (agg geoscale : String)
    (ylo yhi : Int) (stateSel sectorSel : Option String) (h : yhi < ylo) :
    eaFilterRun T agg geoscale ylo yhi stateSel sectorSel = Except.ok [] := by
  have h1 : T.filter (fun r => decide (r.aggregation = agg) && decide (r.GeoScale = geoscale)
      && (decide (ylo ≤ r.Year) && decide (r.Year ≤ yhi))) = [] := by
    rw [List.filter_eq_nil_iff]
    intro r _
    simp only [Bool.and_eq_true, decide_eq_true_eq]
    rintro ⟨-, hlo, hhi⟩
    omega
  simp only [eaFilterRun, eaFilteredRows, h1]
  cases stateSel <;> cases sectorSel <;> simp

/-- Claim C8, witness for the amended statement at a concrete input. -/
theorem c8_no_invalid_filter_spec_witness :
    eaFilterRun [sampleRow] "Sector" "State" 2025 2020 (some "AK")
      (some "Tourism and Recreation") = Except.ok [] :=
  c8_no_invalid_filter_spec [sampleRow] "Sector" "State" 2025 2020 (some "AK")
    (some "Tourism and Recreation") (by decide)

/-- Claim C9: in Error Analysis mode, whenever the grouped results list is
non-empty, the dropna on the column label Y_Value runs before that column
exists — the result_row keys never include Y_Value — so the table
construction raises a KeyError naming Y_Value instead of producing the plot
and summary table. -/
theorem c9_dropna_keyerror (gvars : List String) (results : List (List ℚ))
    (hg : ∀ v ∈ gvars, v ∈ allowedGroupVars) (hne : results ≠ []) :
    buildResultsTable gvars results = Except.error "KeyError: Y_Value" := by
  have hy : ("Y_Value" : String) ∉ resultRowKeys gvars := by
    intro hmem
    simp only [resultRowKeys, List.mem_append] at hmem
    rcases hmem with (hf | hgv) | hgeo
    · exact absurd hf (by decide)
    · exact absurd (hg _ hgv) (by decide)
    · exact absurd hgeo (by decide)
  have hx : ("X_Value" : String) ∈ resultRowKeys gvars := by
    simp [resultRowKeys, fixedResultKeys]
  have hcheck : dropnaSubsetCheck ["Y_Value", "X_Value"] (resultRowKeys gvars)
      = Except.error "KeyError: Y_Value" := by
    unfold dropnaSubsetCheck
    rw [if_neg]
    · have hfil : (["Y_Value", "X_Value"].filter
          (fun c => decide (c ∉ resultRowKeys gvars))) = ["Y_Value"] := by
        simp [List.filter_cons, hy, hx]
      rw [hfil]
      congr 1
    · intro hall
      rw [List.all_eq_true] at hall
      have := hall "Y_Value" (by simp)
      simp only [decide_eq_true_eq] at this
      exact hy this
  unfold buildResultsTable
  rw [if_neg hne, hcheck]
  rfl

/-- Claim C9, witness: with grouping variable OceanSector and one result
row, the construction fails with the KeyError. -/
theorem c9_dropna_keyerror_witness :
    buildResultsTable ["OceanSector"] [[1]] = Except.error "KeyError: Y_Value" :=
  c9_dropna_keyerror ["OceanSector"] [[1]] (by decide) (by decide)

/-- Claim C10: on a Compare-mode run with the comparison data loaded and the
required metric columns present, the script raises NameError on is_currency
— assigned only inside the estimate-modes branch, which Compare mode skips —
at its first reference (line 778), before any chart is rendered; and no run
of the Compare branch ever renders the comparison chart. -/
theorem c10_compare_mode_nameerror :
    runCompareBranch true true = Except.error "NameError: is_currency"
    ∧ ∀ dataLoaded hasCols : Bool,
        runCompareBranch dataLoaded hasCols = Except.error "NameError: is_currency"
        ∨ runCompareBranch dataLoaded hasCols = Except.ok 0 := by
  refine ⟨by rfl, ?_⟩
  intro dataLoaded hasCols
  cases dataLoaded <;> cases hasCols
  · right; rfl
  · right; rfl
  · right; rfl
  · left; rfl

/-! ### Helper lemmas for the Compare pipeline -/

/-- Mapping a function under the options commutes with the null-dropping
extraction. -/
theorem filterMap_id_map_optmap (d : ℚ → ℚ) (vs : List (Option ℚ)) :
    (vs.map (Option.map d)).filterMap id = (vs.filterMap id).map d := by
  induction vs with
  | nil => rfl
  | cons o t ih => cases o <;> simp [ih]

/-- Summing after dividing each element equals dividing the sum. -/
theorem sum_map_div (xs : List ℚ) (c : ℚ) :
    (xs.map (fun v => v / c)).sum = xs.sum / c := by
  induction xs with
  | nil => simp
  | cons a t ih => simp [ih, add_div]

/-- The min_count-1 sum commutes with dividing every cell by a constant. -/
theorem sumMin1_map_div (vs : List (Option ℚ)) (c : ℚ) :
    sumMin1 (vs.map (Option.map (fun v => v / c)))
      = (sumMin1 vs).map (fun v => v / c) := by
  unfold sumMin1
  rw [filterMap_id_map_optmap]
  by_cases h : vs.filterMap id = []
  · simp [h]
  · rw [if_neg (by simp [h]), if_neg h]
    simp [sum_map_div]

/-- The zero-to-missing replacement commutes with dividing by a non-zero
constant. -/
theorem zeroToNone_map_div (o : Option ℚ) (c : ℚ) (hc : c ≠ 0) :
    zeroToNone (o.map (fun v => v / c)) = (zeroToNone o).map (fun v => v / c) := by
  cases o with
  | none => rfl
  | some v =>
    by_cases hv : v = 0
    · simp [zeroToNone, hv]
    · have hvc : v / c ≠ 0 := div_ne_zero hv hc
      simp [zeroToNone, hv, hvc]

/-- The zero-to-missing replacement never returns an exact zero. -/
theorem zeroToNone_ne_some_zero (o : Option ℚ) : zeroToNone o ≠ some 0 := by
  cases o with
  | none => simp [zeroToNone]
  | some v => by_cases hv : v = 0 <;> simp [zeroToNone, hv]

/-- Every column of every compare_df row has been through the zero-to-missing
replacement, so none of them is an exact zero. -/
theorem compare_df_cols_ne_zero (l : List PanelRow) :
    ∀ c ∈ compare_df l, c.enowVal ≠ some 0 ∧ c.openVal ≠ some 0 ∧ c.noimpVal ≠ some 0 := by
  intro c hc
  unfold compare_df at hc
  rw [List.mem_map] at hc
  obtain ⟨y, -, rfl⟩ := hc
  exact ⟨zeroToNone_ne_some_zero _, zeroToNone_ne_some_zero _, zeroToNone_ne_some_zero _⟩

/-- For a metric column that the row rescaling divides by one million, the
per-year column aggregate of the rescaled rows equals the raw aggregate
divided by one million. -/
theorem scaled_col_sum (l : List PanelRow) (y : Int) (f : PanelRow → Option ℚ)
    (hf : ∀ r, f (scaleRowMillions r) = (f r).map (fun v => v / 1000000)) :
    zeroToNone (sumMin1
        (((l.map scaleRowMillions).filter (fun r => decide (r.Year = y))).map f))
      = (zeroToNone (sumMin1 ((l.filter (fun r => decide (r.Year = y))).map f))).map
          (fun v => v / 1000000) := by
  rw [List.filter_map]
  rw [show ((fun r : PanelRow => decide (r.Year = y)) ∘ scaleRowMillions)
      = (fun r : PanelRow => decide (r.Year = y)) from rfl]
  rw [List.map_map]
  rw [show (f ∘ scaleRowMillions)
      = (fun r => Option.map (fun v => v / 1000000) (f r)) from funext hf]
  rw [show (fun r => Option.map (fun v => v / 1000000) (f r))
      = ((Option.map (fun v => v / 1000000)) ∘ f) from rfl]
  rw [← List.map_map]
  rw [sumMin1_map_div]
  exact zeroToNone_map_div _ _ (by norm_num)

/-- Rescaling the rows before the per-year min_count-1 sums and the
zero-replacement gives the same table as building the table from the raw
rows and rescaling its per-year sums afterwards. -/
theorem compare_df_map_scale (l : List PanelRow) :
    compare_df (l.map scaleRowMillions) = (compare_df l).map scaleCompareYear := by
  unfold compare_df
  have hyears : (l.map scaleRowMillions).map (fun r => r.Year) = l.map (fun r => r.Year) := by
    rw [List.map_map]; rfl
  rw [hyears, List.map_map]
  apply List.map_congr_left
  intro y _
  have h1 := scaled_col_sum l y (fun r => r.enowVal) (fun r => rfl)
  have h2 := scaled_col_sum l y (fun r => r.openVal) (fun r => rfl)
  have h3 := scaled_col_sum l y (fun r => r.noimpVal) (fun r => rfl)
  simp only [Function.comp_apply, scaleCompareYear]
  exact CompareYear.mk.injEq .. |>.mpr ⟨rfl, h1, h2, h3⟩

/-- Claim C6, counterexample: in Compare mode the currency rescaling is
applied to the row values before the groupby sum, not after it.  Starting
from a stored raw value of 2,000,000 dollars, the table that enters the
grouped summation already holds 2 (millions) — the division has happened
before the grouped summation, contradicting the claim that it is applied
after it as a presentation-stage transform on grouped sums. -/
theorem c6_counterexample :
    wageRow.openVal = some 2000000
    ∧ (comparePlotRows true [wageRow]).map (fun r => r.openVal) = [some 2] := by
  constructor
  · rfl
  · have h2 : (2000000 : ℚ) / 1000000 = 2 := by norm_num
    simp [comparePlotRows, scaleRowMillions, wageRow, sampleRow, h2]

/-- Claim C6, amended: in the estimate-mode bar path the division by one
million is applied literally after the grouped summation; in the Compare
path it is applied to the rows before the groupby sum, but the resulting
table is extensionally the same as rescaling the raw grouped sums
afterwards, and the stored panel rows are never modified — every transform
builds a new table from the input rows. -/
theorem c6_amended (l : List PanelRow) (col : PanelRow → Option ℚ) (c : Bool) :
    compareDfPipeline c l
      = (if c then (compare_df l).map scaleCompareYear else compare_df l)
    ∧ barDfScaled c l col
      = (if c then (bar_df l col).map (fun e => (e.1, e.2 / 1000000)) else bar_df l col) := by
  constructor
  · cases c
    · rfl
    · simpa [compareDfPipeline, comparePlotRows] using compare_df_map_scale l
  · rfl

/-! ### Helper lemmas for the all-null-group behavior (Claim C1) -/

/-- If every row of a year fiber has a null value in each source column,
then the compare_df record of that year is null in each column. -/
theorem compare_df_allnull_year (l : List PanelRow) (y : Int)
    (h : ∀ r ∈ l, r.Year = y → r.enowVal = none ∧ r.openVal = none ∧ r.noimpVal = none) :
    ∀ c ∈ compare_df l, c.Year = y →
      c.enowVal = none ∧ c.openVal = none ∧ c.noimpVal = none := by
  intro c hc hcy
  unfold compare_df at hc
  rw [List.mem_map] at hc
  obtain ⟨y', -, rfl⟩ := hc
  have hy' : y' = y := hcy
  subst hy'
  have hnull : ∀ (f : PanelRow → Option ℚ),
      (∀ r ∈ l, r.Year = y' → f r = none) →
      zeroToNone (sumMin1 ((l.filter (fun r => decide (r.Year = y'))).map f)) = none := by
    intro f hf
    have hfm : ((l.filter (fun r => decide (r.Year = y'))).map f).filterMap id = [] := by
      rw [List.filterMap_eq_nil_iff]
      intro o ho
      rw [List.mem_map] at ho
      obtain ⟨r, hr, rfl⟩ := ho
      rw [List.mem_filter] at hr
      exact hf r hr.1 (of_decide_eq_true hr.2)
    unfold sumMin1
    rw [if_pos hfm]
    rfl
  refine ⟨hnull _ ?_, hnull _ ?_, hnull _ ?_⟩ <;>
    exact fun r hr hry => by
      first
      | exact (h r hr hry).1
      | exact (h r hr hry).2.1
      | exact (h r hr hry).2.2

/-- Claim C1, counterexample: the bar_df path emits a zero-valued row for a
year whose only contributing row has a null metric — the claim says no
output row may be emitted for such a (year) group at all. -/
theorem c1_counterexample :
    bar_df [nullRow2020] (fun r => r.openVal) = [((2020 : Int), (0 : ℚ))] := by
  decide

/-- Every entry of the melted long-form table comes from a compare_df record
of the same year carrying at least one non-null column. -/
theorem long_form_mem_year (cds : List CompareYear) (e : Int × String × ℚ)
    (he : e ∈ long_form_df cds) :
    ∃ c ∈ cds, c.Year = e.1
      ∧ (c.enowVal ≠ none ∨ c.openVal ≠ none ∨ c.noimpVal ≠ none) := by
  unfold long_form_df at he
  rw [List.mem_append, List.mem_append] at he
  rcases he with (he | he) | he
  · rw [List.mem_filterMap] at he
    obtain ⟨c, hc, hsome⟩ := he
    rw [Option.map_eq_some'] at hsome
    obtain ⟨v, hcol, heq⟩ := hsome
    exact ⟨c, hc, by rw [← heq], Or.inl (by simp [hcol])⟩
  · rw [List.mem_filterMap] at he
    obtain ⟨c, hc, hsome⟩ := he
    rw [Option.map_eq_some'] at hsome
    obtain ⟨v, hcol, heq⟩ := hsome
    exact ⟨c, hc, by rw [← heq], Or.inr (Or.inl (by simp [hcol]))⟩
  · rw [List.mem_filterMap] at he
    obtain ⟨c, hc, hsome⟩ := he
    rw [Option.map_eq_some'] at hsome
    obtain ⟨v, hcol, heq⟩ := hsome
    exact ⟨c, hc, by rw [← heq], Or.inr (Or.inr (by simp [hcol]))⟩

/-- Claim C1, amended: rows with a null metric are excluded from the grouped
sums without nullifying the totals in both paths (summing with nulls read as
zero contribution), and in the Compare path a (year) group whose rows are
all null yields no output row; but in the bar_df path an all-null year is
still emitted, as a row with value 0. -/
theorem c1_amended (l cl : List PanelRow) (col : PanelRow → Option ℚ) (y : Int) :
    ((∀ r ∈ cl, r.Year = y → r.enowVal = none ∧ r.openVal = none ∧ r.noimpVal = none) →
      ∀ e ∈ long_form_df (compare_df cl), e.1 ≠ y)
    ∧ bar_df l col = ((l.map (fun r => r.Year)).dedup).map
        (fun y' => (y', (((l.filter (fun r => decide (r.Year = y'))).map col).map
          (fun o => o.getD 0)).sum))
    ∧ ((y ∈ l.map (fun r => r.Year)) → (∀ r ∈ l, r.Year = y → col r = none) →
        ((y, (0 : ℚ)) ∈ bar_df l col)) := by
  refine ⟨?_, ?_, ?_⟩
  · intro h e he hey
    obtain ⟨c, hc, hcy, hne⟩ := long_form_mem_year (compare_df cl) e he
    have hall := compare_df_allnull_year cl y h c hc (by rw [hcy, hey])
    rcases hne with hne | hne | hne
    · exact hne hall.1
    · exact hne hall.2.1
    · exact hne hall.2.2
  · unfold bar_df
    apply List.map_congr_left
    intro y' _
    rw [sumSkipna_eq_sum_getD]
  · intro hy hnull
    have hmem : y ∈ (l.map (fun r => r.Year)).dedup := List.mem_dedup.mpr hy
    have hval : sumSkipna ((l.filter (fun r => decide (r.Year = y))).map col) = 0 := by
      have hnil : ((l.filter (fun r => decide (r.Year = y))).map col).filterMap id = [] := by
        rw [List.filterMap_eq_nil_iff]
        intro o ho
        rw [List.mem_map] at ho
        obtain ⟨r, hr, rfl⟩ := ho
        rw [List.mem_filter] at hr
        exact hnull r hr.1 (of_decide_eq_true hr.2)
      unfold sumSkipna
      rw [hnil]
      rfl
    unfold bar_df
    rw [List.mem_map]
    exact ⟨y, hmem, by rw [hval]⟩

/-- Claim C1, witness: with a single 2020 row whose metrics are all null,
the Compare path emits no 2020 output row while the bar_df path emits the
zero-valued row. -/
theorem c1_amended_witness :
    (∀ e ∈ long_form_df (compare_df [nullRow2020]), e.1 ≠ (2020 : Int))
    ∧ (((2020 : Int), (0 : ℚ)) ∈ bar_df [nullRow2020] (fun r => r.openVal)) :=
  ⟨(c1_amended [nullRow2020] [nullRow2020] (fun r => r.openVal) 2020).1 (by decide),
   (c1_amended [nullRow2020] [nullRow2020] (fun r => r.openVal) 2020).2.2
     (by decide) (by decide)⟩

/-! ### Helper computations for concrete compare_df rows -/

/-- The min_count-1 sum of a single present cell is that cell. -/
theorem sumMin1_single (v : ℚ) : sumMin1 [some v] = some v := by
  unfold sumMin1
  rw [if_neg (by simp)]
  simp

/-- The min_count-1 sum of a single null cell is null. -/
theorem sumMin1_none1 : sumMin1 [none] = none := rfl

/-- compare_df of the single currency row, evaluated. -/
theorem compare_df_wageRow : compare_df [wageRow] = [cmpYearRaw] := by
  unfold compare_df
  norm_num [sumMin1_single, sumMin1_none1, zeroToNone, wageRow, sampleRow, cmpYearRaw,
    List.filter]

/-- Claim C2, counterexample: with one row whose reference value is exactly
0 (estimate 4) and one row where both series are 10, the Error Analysis mean
absolute error is 2 — the zero-reference row is included — whereas a
computation restricted to years with non-null, non-zero values in both
series gives 0.  The claim that every statistic uses only such years is
false on the Error Analysis path. -/
theorem c2_counterexample :
    eaMAE [zeroRefRow, agreeRow] = some 2
    ∧ specAlignedMAE [zeroRefRow, agreeRow] = some 0 := by
  constructor
  · norm_num [eaMAE, eaDropna, meanQ, zeroRefRow, agreeRow, sampleRow, List.filter]
    intro h
    exact absurd h (by simp)
  · norm_num [specAlignedMAE, alignedRows, meanQ, zeroRefRow, agreeRow, sampleRow, List.filter]

/-- Claim C2, amended: in Compare mode every statistic is computed only over
years in which both series are non-null and non-zero (the zero-replacement
and the dropna guarantee it); in Error Analysis mode only the percent
difference excludes reference-zero rows — mean absolute error and mean
squared error (hence root mean squared error) are computed over every row in
which both values are non-null, including rows where either value is 0. -/
theorem c2_amended (g l : List PanelRow) (src : CompareSource) (c : Bool) :
    eaMPD g = meanQ ((g.filter (fun r => r.enowVal.isSome && r.openVal.isSome
        && !(decide (r.enowVal = some 0)))).map
      (fun r => 100 * (r.openVal.getD 0 - r.enowVal.getD 0) / r.enowVal.getD 0))
    ∧ eaMAE g = meanQ ((g.filter (fun r => r.enowVal.isSome && r.openVal.isSome)).map
        (fun r => |r.openVal.getD 0 - r.enowVal.getD 0|))
    ∧ eaMSE g = meanQ ((g.filter (fun r => r.enowVal.isSome && r.openVal.isSome)).map
        (fun r => (r.openVal.getD 0 - r.enowVal.getD 0) ^ 2))
    ∧ ∀ cy ∈ validCompare (compareDfPipeline c l) src,
        cy.enowVal.isSome = true ∧ cy.enowVal ≠ some 0
        ∧ (cy.sourceVal src).isSome = true ∧ cy.sourceVal src ≠ some 0 := by
  refine ⟨?_, rfl, rfl, ?_⟩
  · have hfil : validEnow (eaDropna g)
        = g.filter (fun r => r.enowVal.isSome && r.openVal.isSome
            && !(decide (r.enowVal = some 0))) := by
      unfold validEnow eaDropna
      rw [List.filter_filter]
      exact List.filter_congr (fun r _ => Bool.and_comm _ _)
    unfold eaMPD
    rw [hfil]
  · intro cy hcy
    unfold validCompare at hcy
    rw [List.mem_filter] at hcy
    obtain ⟨hmem, hbool⟩ := hcy
    rw [Bool.and_eq_true] at hbool
    have hzero := compare_df_cols_ne_zero (comparePlotRows c l) cy hmem
    refine ⟨hbool.1, hzero.1, hbool.2, ?_⟩
    cases src
    · exact hzero.2.1
    · exact hzero.2.2

/-- Claim C2, witness for the amended statement: the valid Compare year
built from the raw currency row has non-null, non-zero values in both
columns. -/
theorem c2_amended_witness :
    cmpYearRaw.enowVal.isSome = true ∧ cmpYearRaw.enowVal ≠ some 0
    ∧ (cmpYearRaw.sourceVal CompareSource.openEnow).isSome = true
    ∧ cmpYearRaw.sourceVal CompareSource.openEnow ≠ some 0 :=
  (c2_amended [] [wageRow] CompareSource.openEnow false).2.2.2 cmpYearRaw
    (by rw [show compareDfPipeline false [wageRow] = compare_df [wageRow] from rfl,
          compare_df_wageRow]
        norm_num [validCompare, cmpYearRaw, CompareYear.sourceVal, List.filter])

/-- Claim C5: a reference value of exactly 0 is excluded from the
percent-difference statistics on both paths.  In Error Analysis the mean
percent difference averages exactly over the rows that survive the dropna
and carry a non-zero reference; in Compare mode the percent-difference
series only touches years whose reference is non-null and non-zero, and its
mean is taken over that series. -/
theorem c5_zero_reference_excluded (g cds : List PanelRow) (src : CompareSource) :
    (∀ r ∈ validEnow (eaDropna g), r.enowVal.getD 0 ≠ 0)
    ∧ eaMPD g = meanQ (((eaDropna g).filter
        (fun r => !(decide (r.enowVal.getD 0 = 0)))).map
      (fun r => 100 * (r.openVal.getD 0 - r.enowVal.getD 0) / r.enowVal.getD 0))
    ∧ comparePctMean (compare_df cds) src = meanQ (comparePctList (compare_df cds) src)
    ∧ ∀ cy ∈ validCompare (compare_df cds) src, cy.enowVal.getD 0 ≠ 0 := by
  have hdrop : ∀ r ∈ eaDropna g, r.enowVal.isSome = true := by
    intro r hr
    unfold eaDropna at hr
    rw [List.mem_filter] at hr
    have h2 := hr.2
    rw [Bool.and_eq_true] at h2
    exact h2.1
  refine ⟨?_, ?_, rfl, ?_⟩
  · intro r hr
    unfold validEnow at hr
    rw [List.mem_filter] at hr
    obtain ⟨hmem, hb⟩ := hr
    have hs := hdrop r hmem
    rw [Bool.not_eq_true', decide_eq_false_iff_not] at hb
    cases he : r.enowVal with
    | none => rw [he] at hs; exact Bool.noConfusion hs
    | some v =>
      rw [he] at hb
      simp only [he, Option.getD_some]
      intro h0
      exact hb (by rw [h0])
  · have hfil : validEnow (eaDropna g)
        = (eaDropna g).filter (fun r => !(decide (r.enowVal.getD 0 = 0))) := by
      unfold validEnow
      apply List.filter_congr
      intro r hr
      have hs := hdrop r hr
      cases he : r.enowVal with
      | none => rw [he] at hs; exact Bool.noConfusion hs
      | some v => simp [he]
    unfold eaMPD
    rw [hfil]
  · intro cy hcy
    unfold validCompare at hcy
    rw [List.mem_filter] at hcy
    obtain ⟨hmem, hb⟩ := hcy
    rw [Bool.and_eq_true] at hb
    have hz := (compare_df_cols_ne_zero cds cy hmem).1
    cases he : cy.enowVal with
    | none => rw [he] at hb; exact absurd hb.1 (by simp)
    | some v =>
      simp only [he, Option.getD_some]
      intro h0
      exact hz (by rw [he, h0])

/-- Claim C5, witness: at concrete inputs, the surviving rows and years all
carry a non-zero reference value. -/
theorem c5_zero_reference_excluded_witness :
    agreeRow.enowVal.getD 0 ≠ 0 ∧ cmpYearRaw.enowVal.getD 0 ≠ 0 :=
  ⟨(c5_zero_reference_excluded [agreeRow] [wageRow] CompareSource.openEnow).1 agreeRow
      (by decide),
   (c5_zero_reference_excluded [agreeRow] [wageRow] CompareSource.openEnow).2.2.2 cmpYearRaw
      (by rw [compare_df_wageRow]
          norm_num [validCompare, cmpYearRaw, CompareYear.sourceVal, List.filter])⟩

/-! ### The stable descending rank (Claim C3)

The pandas rank with method first and ascending False assigns to each row
its one-based position in the stable descending sort of the group values.
The lemmas below show that this coincides with the counting description of
the specification: one plus the number of rows with a strictly larger value
or an equal value met earlier in the input. -/

/-- Transitivity of the descending-with-tie-break comparator. -/
theorem leDesc_trans (a b c : ℕ × ℚ) (h1 : leDesc a b = true) (h2 : leDesc b c = true) :
    leDesc a c = true := by
  unfold leDesc at h1 h2 ⊢
  simp only [Bool.or_eq_true, Bool.and_eq_true, decide_eq_true_eq] at h1 h2 ⊢
  rcases h1 with h1 | ⟨h1e, h1i⟩
  · rcases h2 with h2 | ⟨h2e, h2i⟩
    · exact Or.inl (lt_trans h2 h1)
    · exact Or.inl (h2e ▸ h1)
  · rcases h2 with h2 | ⟨h2e, h2i⟩
    · exact Or.inl (h1e ▸ h2)
    · exact Or.inr ⟨h1e.trans h2e, le_trans h1i h2i⟩

/-- Totality of the descending-with-tie-break comparator. -/
theorem leDesc_total (a b : ℕ × ℚ) : (leDesc a b || leDesc b a) = true := by
  unfold leDesc
  simp only [Bool.or_eq_true, Bool.and_eq_true, decide_eq_true_eq]
  rcases lt_trichotomy a.2 b.2 with h | h | h
  · exact Or.inr (Or.inl h)
  · rcases Nat.le_total a.1 b.1 with hi | hi
    · exact Or.inl (Or.inr ⟨h, hi⟩)
    · exact Or.inr (Or.inr ⟨h.symm, hi⟩)
  · exact Or.inl (Or.inl h)

/-- Irreflexivity of the strict order. -/
theorem sltPair_irrefl (a : ℕ × ℚ) : ¬ sltPair a a := by
  unfold sltPair
  rintro (h | ⟨-, h⟩)
  · exact lt_irrefl _ h
  · exact lt_irrefl _ h

/-- Asymmetry of the strict order. -/
theorem sltPair_asymm (a b : ℕ × ℚ) (h1 : sltPair a b) (h2 : sltPair b a) : False := by
  unfold sltPair at h1 h2
  rcases h1 with h1 | ⟨h1e, h1i⟩
  · rcases h2 with h2 | ⟨h2e, h2i⟩
    · exact lt_irrefl _ (lt_trans h1 h2)
    · exact lt_irrefl _ (h2e ▸ h1)
  · rcases h2 with h2 | ⟨h2e, h2i⟩
    · exact lt_irrefl _ (h1e ▸ h2)
    · exact lt_irrefl _ (lt_trans h1i h2i)

/-- A weak comparison together with distinct indices gives the strict
order. -/
theorem leDesc_ne_slt (a b : ℕ × ℚ) (hle : leDesc a b = true) (hne : a.1 ≠ b.1) :
    sltPair a b := by
  unfold leDesc at hle
  unfold sltPair
  simp only [Bool.or_eq_true, Bool.and_eq_true, decide_eq_true_eq] at hle
  rcases hle with h | ⟨he, hi⟩
  · exact Or.inl h
  · exact Or.inr ⟨he, lt_of_le_of_ne hi hne⟩

/-- findIdx on a list split around the first matching element. -/
theorem findIdx_append_cons {α : Type} (pr : α → Bool) (l₁ l₂ : List α) (x : α)
    (h₁ : ∀ a ∈ l₁, pr a = false) (hx : pr x = true) :
    (l₁ ++ x :: l₂).findIdx pr = l₁.length := by
  induction l₁ with
  | nil => simp [List.findIdx_cons, hx]
  | cons a t ih =>
    rw [List.cons_append, List.findIdx_cons, h₁ a (List.mem_cons_self a t)]
    rw [ih (fun b hb => h₁ b (List.mem_cons_of_mem a hb))]
    simp [List.length_cons]

/-- The pandas rank computed through the stable descending sort equals the
counting rank of the specification: one plus the number of entries with a
strictly larger value, or an equal value encountered earlier. -/
theorem rankFirst_eq_specRankCount (g : List ℚ) (p : ℕ) (hp : p < g.length) :
    rankFirst g p = specRankCount g p := by
  have hperm : (g.enum.mergeSort leDesc).Perm g.enum := List.mergeSort_perm g.enum leDesc
  have hsorted : (g.enum.mergeSort leDesc).Pairwise (fun a b => leDesc a b = true) :=
    List.sorted_mergeSort leDesc_trans leDesc_total g.enum
  have hnodupE : (g.enum.map Prod.fst).Nodup := by
    rw [List.enum_map_fst]
    exact List.nodup_range _
  have hnodup : ((g.enum.mergeSort leDesc).map Prod.fst).Nodup :=
    ((hperm.map Prod.fst).nodup_iff).mpr hnodupE
  have hpairne : (g.enum.mergeSort leDesc).Pairwise (fun a b => a.1 ≠ b.1) :=
    List.pairwise_map.mp hnodup
  have hstrict : (g.enum.mergeSort leDesc).Pairwise sltPair :=
    (hsorted.and hpairne).imp (fun h => leDesc_ne_slt _ _ h.1 h.2)
  have hpE : p < g.enum.length := by
    rw [List.enum_length]
    exact hp
  have hgetE : g.enum[p] = (p, g[p]) := List.getElem_enum g p hpE
  have hxE : (p, g[p]) ∈ g.enum := hgetE ▸ List.getElem_mem hpE
  have hxs : (p, g[p]) ∈ g.enum.mergeSort leDesc := hperm.mem_iff.mpr hxE
  obtain ⟨s₁, s₂, hsplit⟩ := List.append_of_mem hxs
  have hne₁ : ∀ a ∈ s₁, a.1 ≠ p := by
    intro a ha
    have hpw := hpairne
    rw [hsplit, List.pairwise_append] at hpw
    exact hpw.2.2 a ha (p, g[p]) (List.mem_cons_self _ _)
  have hfind : (g.enum.mergeSort leDesc).findIdx (fun q => decide (q.1 = p)) = s₁.length := by
    rw [hsplit]
    refine findIdx_append_cons _ s₁ s₂ _ ?_ (by simp)
    intro a ha
    simpa using hne₁ a ha
  have hpwS := hstrict
  rw [hsplit, List.pairwise_append] at hpwS
  have hcount : (g.enum.countP (fun q => decide (sltPair q (p, g[p])))) = s₁.length := by
    rw [← hperm.countP_eq, hsplit, List.countP_append, List.countP_cons]
    have hall : s₁.countP (fun q => decide (sltPair q (p, g[p]))) = s₁.length := by
      rw [List.countP_eq_length]
      intro a ha
      simpa using hpwS.2.2 a ha (p, g[p]) (List.mem_cons_self _ _)
    have hx0 : (decide (sltPair (p, g[p]) (p, g[p]))) = false := by
      simpa using sltPair_irrefl (p, g[p])
    have hrest : s₂.countP (fun q => decide (sltPair q (p, g[p]))) = 0 := by
      rw [List.countP_eq_zero]
      intro b hb
      have hxb : sltPair (p, g[p]) b := by
        have hpc := hpwS.2.1
        rw [List.pairwise_cons] at hpc
        exact hpc.1 b hb
      simp only [decide_eq_true_eq]
      intro hbx
      exact sltPair_asymm _ _ hbx hxb
    rw [hall, hrest, hx0]
    simp
  have hpred : (fun q : ℕ × ℚ => decide (g.getD p 0 < q.2)
        || (decide (q.2 = g.getD p 0) && decide (q.1 < p)))
      = (fun q : ℕ × ℚ => decide (sltPair q (p, g[p]))) := by
    funext q
    rw [List.getD_eq_getElem g 0 hp]
    have hrhs : decide (sltPair q (p, g[p]))
        = (decide (g[p] < q.2) || (decide (q.2 = g[p]) && decide (q.1 < p))) := by
      unfold sltPair
      rw [Bool.decide_or, Bool.decide_and]
    rw [hrhs]
  unfold rankFirst specRankCount
  rw [hpred, hcount, hfind]

/-- Relabeling one year group with the sorting rank equals relabeling it
with the counting rank of the specification. -/
theorem labeledYear_eq_spec (scale : String) (g : List GeoYearRow) :
    labeledYear scale g = specLabeledYear scale g := by
  unfold labeledYear specLabeledYear
  apply List.map_congr_left
  intro q hq
  have hqlt : q.1 < (g.map (fun r => r.val)).length := by
    rw [List.length_map]
    have hmem : q.1 ∈ g.enum.map Prod.fst := List.mem_map.mpr ⟨q, hq, rfl⟩
    rw [List.enum_map_fst, List.mem_range] at hmem
    exact hmem
  rw [rankFirst_eq_specRankCount _ _ hqlt]

/-- Claim C3: for every year group, the rank of each row is the stable
descending rank — ranked by descending metric value with ties broken by
first-encountered input order — and the decomposition keeps the geography
name exactly for ranks up to 3 while relabeling every other row to the
synthetic All Other bucket and summing by (year, label), so the whole
pipeline equals its specification-side description built from the counting
rank. -/
theorem c3_stable_rank_top3 (scale : String) (l : List GeoYearRow) :
    (∀ (g : List ℚ) (p : Fin g.length), rankFirst g p.1 = specRankCount g p.1)
    ∧ plot_df_geos scale l = specPlotDfGeos scale l := by
  constructor
  · exact fun g p => rankFirst_eq_specRankCount g p.1 p.2
  · unfold plot_df_geos specPlotDfGeos labeledRows specLabeledRows
    simp only [labeledYear_eq_spec]

/-! ### Completeness of the decomposition (Claim C4) -/

/-- A sum over a list splits into the sums over a predicate filter and its
complement. -/
theorem sum_map_filter_split {α : Type} (p : α → Bool) (f : α → ℚ) (l : List α) :
    ((l.filter p).map f).sum + ((l.filter (fun a => !(p a))).map f).sum
      = (l.map f).sum := by
  induction l with
  | nil => simp
  | cons a t ih =>
    by_cases h : p a = true
    · rw [List.filter_cons_of_pos h, List.filter_cons_of_neg (by simp [h]),
        List.map_cons, List.sum_cons, List.map_cons, List.sum_cons, add_assoc, ih]
    · rw [List.filter_cons_of_neg h, List.filter_cons_of_pos (by simp [h]),
        List.map_cons, List.sum_cons, List.map_cons, List.sum_cons, ← ih]
      ring

/-- Summing the per-key fiber sums over a duplicate-free list of keys that
covers a predicate equals the filtered total. -/
theorem fiber_sum_aux {κ : Type} [DecidableEq κ] (Q : κ → Bool) :
    ∀ (d : List κ) (ps : List (κ × ℚ)), d.Nodup →
      (∀ p ∈ ps, Q p.1 = true → p.1 ∈ d) →
      ((d.filter Q).map
          (fun k => ((ps.filter (fun p => p.1 = k)).map Prod.snd).sum)).sum
        = ((ps.filter (fun p => Q p.1)).map Prod.snd).sum := by
  intro d
  induction d with
  | nil =>
    intro ps _ hcov
    have hnil : ps.filter (fun p => Q p.1) = [] := by
      rw [List.filter_eq_nil_iff]
      intro p hp hQ
      exact absurd (hcov p hp hQ) (List.not_mem_nil _)
    simp [hnil]
  | cons k d' ih =>
    intro ps hnd hcov
    rw [List.nodup_cons] at hnd
    by_cases hQk : Q k = true
    · rw [List.filter_cons_of_pos hQk, List.map_cons, List.sum_cons]
      have htail : (d'.filter Q).map
            (fun k' => ((ps.filter (fun p => p.1 = k')).map Prod.snd).sum)
          = (d'.filter Q).map (fun k' => (((ps.filter (fun p => !(decide (p.1 = k)))).filter
              (fun p => p.1 = k')).map Prod.snd).sum) := by
        apply List.map_congr_left
        intro k' hk'
        have hk'd : k' ∈ d' := (List.mem_filter.mp hk').1
        have hkk' : k' ≠ k := fun h => hnd.1 (h ▸ hk'd)
        have hfil : (ps.filter (fun p => !(decide (p.1 = k)))).filter
              (fun p => p.1 = k')
            = ps.filter (fun p => p.1 = k') := by
          rw [List.filter_filter]
          apply List.filter_congr
          intro p _
          by_cases hpk' : p.1 = k'
          · have hnk : ¬ (p.1 = k) := by rw [hpk']; exact hkk'
            simp [hpk', hnk, hkk']
          · simp [hpk']
        rw [hfil]
      have hihtail := ih (ps.filter (fun p => !(decide (p.1 = k)))) hnd.2 ?_
      · rw [htail, hihtail]
        have hsplit := sum_map_filter_split (fun p : κ × ℚ => decide (p.1 = k)) Prod.snd
          (ps.filter (fun p => Q p.1))
        have hfibQ : (ps.filter (fun p => Q p.1)).filter (fun p => decide (p.1 = k))
            = ps.filter (fun p => p.1 = k) := by
          rw [List.filter_filter]
          apply List.filter_congr
          intro p _
          by_cases hpk : p.1 = k
          · simp [hpk, hQk]
          · simp [hpk]
        have hfibNQ : (ps.filter (fun p => Q p.1)).filter (fun p => !(decide (p.1 = k)))
            = (ps.filter (fun p => !(decide (p.1 = k)))).filter (fun p => Q p.1) := by
          rw [List.filter_filter, List.filter_filter]
          exact List.filter_congr (fun p _ => Bool.and_comm _ _)
        rw [hfibQ, hfibNQ] at hsplit
        exact hsplit
      · intro p hp hQp
        rw [List.mem_filter] at hp
        have hmem := hcov p hp.1 hQp
        rw [List.mem_cons] at hmem
        rcases hmem with hmem | hmem
        · exact absurd hmem (by simpa using hp.2)
        · exact hmem
    · rw [List.filter_cons_of_neg hQk]
      refine (ih ps hnd.2 ?_)
      intro p hp hQp
      have hmem := hcov p hp hQp
      rw [List.mem_cons] at hmem
      rcases hmem with hmem | hmem
      · exact absurd (hmem ▸ hQp) hQk
      · exact hmem

/-- Filtering the groupby-sum output by a key predicate and summing equals
filtering the input pairs and summing: the grouped sums partition the
total. -/
theorem groupbySum_filter_sum {κ : Type} [DecidableEq κ] (Q : κ → Bool)
    (ps : List (κ × ℚ)) :
    (((groupbySum ps).filter (fun e => Q e.1)).map Prod.snd).sum
      = ((ps.filter (fun e => Q e.1)).map Prod.snd).sum := by
  unfold groupbySum
  rw [List.filter_map, List.map_map]
  exact fiber_sum_aux Q _ ps (List.nodup_dedup _)
    (fun p hp _ => List.mem_dedup.mpr (List.mem_map.mpr ⟨p, hp, rfl⟩))

/-- The values carried by the relabeled rows of one year group are exactly
the group values. -/
theorem labeledYear_snd_sum (scale : String) (g : List GeoYearRow) :
    ((labeledYear scale g).map Prod.snd).sum = (g.map (fun r => r.val)).sum := by
  unfold labeledYear
  rw [List.map_map]
  rw [show (Prod.snd ∘ fun p : ℕ × GeoYearRow =>
      ((if rankFirst (g.map (fun r => r.val)) p.1 ≤ 3 then p.2.GeoName
        else otherLabel scale), p.2.val))
      = ((fun r : GeoYearRow => r.val) ∘ Prod.snd) from rfl]
  rw [← List.map_map, List.enum_map_snd]

/-- Summing the labeled rows of one year over a duplicate-free year list:
only the matching year group contributes, with its full value sum. -/
theorem flatMap_year_sum (scale : String) (l : List GeoYearRow) (y : Int) :
    ∀ d : List Int, d.Nodup →
      ((((d.flatMap (fun y' => (labeledYear scale (yearRows l y')).map
            (fun e => ((y', e.1), e.2)))).filter
          (fun e => decide (e.1.1 = y))).map Prod.snd).sum)
        = (if y ∈ d then ((yearRows l y).map (fun r => r.val)).sum else 0) := by
  intro d
  induction d with
  | nil => simp
  | cons y' d' ih =>
    intro hnd
    rw [List.nodup_cons] at hnd
    rw [List.flatMap_cons, List.filter_append, List.map_append, List.sum_append,
      ih hnd.2]
    by_cases hyy : y' = y
    · subst hyy
      have hhead : ((labeledYear scale (yearRows l y')).map
            (fun e => ((y', e.1), e.2))).filter (fun e => decide (e.1.1 = y'))
          = (labeledYear scale (yearRows l y')).map (fun e => ((y', e.1), e.2)) := by
        rw [List.filter_eq_self]
        intro e he
        rw [List.mem_map] at he
        obtain ⟨q, -, rfl⟩ := he
        simp
      rw [hhead, if_neg hnd.1, if_pos (List.mem_cons_self _ _), add_zero]
      rw [List.map_map]
      rw [show (Prod.snd ∘ fun e : String × ℚ => ((y', e.1), e.2)) = Prod.snd from rfl]
      exact labeledYear_snd_sum scale (yearRows l y')
    · have hhead : ((labeledYear scale (yearRows l y')).map
            (fun e => ((y', e.1), e.2))).filter (fun e => decide (e.1.1 = y)) = [] := by
        rw [List.filter_eq_nil_iff]
        intro e he
        rw [List.mem_map] at he
        obtain ⟨q, -, rfl⟩ := he
        simp [hyy]
      rw [hhead]
      by_cases hyd : y ∈ d'
      · rw [if_pos hyd, if_pos (List.mem_cons_of_mem _ hyd)]
        simp
      · rw [if_neg hyd, if_neg ?_]
        · simp
        · rw [List.mem_cons]
          rintro (h | h)
          · exact hyy h.symm
          · exact hyd h

/-- Claim C4: for every year, the sum of the decomposition output rows of
that year — the up-to-three individually listed geographies plus the other
bucket — equals the total sum of the metric over all (non-null) rows of that
year.  The equality is exact over the rationals, hence in particular within
any relative tolerance. -/
theorem c4_topn_completeness (scale : String) (l : List GeoYearRow) (y : Int) :
    (((plot_df_geos scale l).filter (fun e => decide (e.1.1 = y))).map Prod.snd).sum
      = ((l.filter (fun r => decide (r.Year = y))).map (fun r => r.val)).sum := by
  unfold plot_df_geos
  have hgs := groupbySum_filter_sum (fun k : Int × String => decide (k.1 = y))
    (labeledRows scale l)
  rw [hgs]
  unfold labeledRows
  rw [flatMap_year_sum scale l y _ (List.nodup_dedup _)]
  by_cases hy : y ∈ (l.map (fun r => r.Year)).dedup
  · rw [if_pos hy]
    rfl
  · rw [if_neg hy]
    have hnil : l.filter (fun r => decide (r.Year = y)) = [] := by
      rw [List.filter_eq_nil_iff]
      intro r hr hdec
      exact hy (List.mem_dedup.mpr
        (List.mem_map.mpr ⟨r, hr, of_decide_eq_true hdec⟩))
    rw [hnil]
    rfl

end MarineEcon
